import Mathlib

/-!
Shallow embedding of the gpu-accelerated-speech-to-text session daemon.

Sources embedded here:
- src/src/audio_processor.py (AudioPreprocessor: content analysis, noise cancelling)
- src/src/session_daemon.py (SessionSpeechDaemon: calibration, transcription
  pipeline, request processing, daemon loop, timeout monitor)
- src/src/speech_engine.py (SpeechEngine: model load, transcription)
- src/src/session_coordinator.py (SessionCoordinator, SessionTimeoutMonitor)
- src/speech_daemon.py (SpeechDaemon: confidence routing, correction backend)

Conventions of the embedding:
- Audio sample buffers are lists of rationals (Python float arrays); design
  constants written as decimal floats in Python (0.15, 0.0005, 1.5, ...) are
  embedded as the corresponding rationals.
- The numpy RMS computation sqrt(mean(audio**2)) is irrational-valued, so RMS
  comparisons are embedded on squares: for nonnegative x and t,
  sqrt x >= t holds iff x >= t^2.  Where a pre-computed RMS value flows
  through unchanged (calibration), it is passed as an explicit rational input.
- External collaborators (soundfile load, the Whisper model, scipy DSP
  kernels, the subprocess correction backend) are fallible inputs: an
  Except value or an explicitly parametrised function, so that the caught /
  uncaught structure of each Python try block is preserved.
- Wall-clock timestamps are rationals supplied as explicit inputs.
-/

namespace SpeechToText

/-- A mono float32 sample buffer (numpy array downmixed to mono). -/
abbrev Clip := List ℚ

/-- Sum of squared samples. -/
def sumSq (xs : Clip) : ℚ := (xs.map (fun x => x * x)).sum

/-- Mean of squared samples: numpy mean(audio**2).  For the empty buffer
numpy yields nan; here division by zero yields 0, and every use below
guards the empty case separately where the Python behaviour differs. -/
def meanSq (xs : Clip) : ℚ := sumSq xs / (xs.length : ℚ)

/-- Largest absolute sample value: numpy max(abs(audio)) on a nonempty
buffer (numpy raises on the empty one; callers model that case). -/
def maxAbs (xs : Clip) : ℚ := xs.foldr (fun x m => max |x| m) 0

/-- Content-validation minimum duration in seconds
(AudioPreprocessor.min_duration_seconds = 0.15). -/
def minDurationSeconds : ℚ := 0.15

/-- Content-validation minimum RMS
(AudioPreprocessor.min_rms_threshold = 0.0005). -/
def minRmsThreshold : ℚ := 0.0005

/-- AudioAnalysis dataclass from audio_processor.py.  The rms_level field of
the source is sqrt of the rmsSq stored here (see the header note on RMS). -/
structure AudioAnalysis where
  duration : ℚ
  rmsSq : ℚ
  peakLevel : ℚ
  hasContent : Bool
  sampleRate : ℕ
deriving DecidableEq

/-- AudioPreprocessor.analyze_audio_content.  The Python body computes
duration, RMS and peak inside a try block; on the empty buffer numpy max
raises, and on sample_rate = 0 the duration division raises, so both cases
fall into the except branch that returns the conservative defaults
(duration 0, levels 0, has_content False). -/
def analyzeAudioContent (clip : Clip) (sampleRate : ℕ) : AudioAnalysis :=
  if clip.isEmpty || sampleRate == 0 then
    { duration := 0, rmsSq := 0, peakLevel := 0, hasContent := false,
      sampleRate := sampleRate }
  else
    let duration : ℚ := (clip.length : ℚ) / (sampleRate : ℚ)
    let msq := meanSq clip
    let hasContent :=
      decide (duration ≥ minDurationSeconds) &&
      decide (msq ≥ minRmsThreshold ^ 2)
    { duration := duration, rmsSq := msq, peakLevel := maxAbs clip,
      hasContent := hasContent, sampleRate := sampleRate }

/-- SessionSpeechDaemon.check_audio_content.  Same thresholds as the
preprocessor, but the except branch returns True (keep the audio when the
analysis itself fails); sample_rate = 0 is the raising case. -/
def checkAudioContent (clip : Clip) (sampleRate : ℕ) : Bool :=
  if sampleRate == 0 then true
  else if (clip.length : ℚ) / (sampleRate : ℚ) < minDurationSeconds then false
  else if meanSq clip < minRmsThreshold ^ 2 then false
  else true

/-- One entry of SessionSpeechDaemon.speech_contrast_data: the dict with
speech_rms and contrast_ratio (the wall-clock timestamp field is dropped,
no embedded code reads it). -/
structure ContrastEntry where
  speechRms : ℚ
  contrastFactor : ℚ
deriving DecidableEq

/-- Ambient-calibration state of SessionSpeechDaemon: baseline_rms
(None until collected), speech_contrast_data, calibrated_threshold. -/
structure CalibState where
  baselineRms : Option ℚ
  contrastWindow : List ContrastEntry
  calibratedThreshold : ℚ
deriving DecidableEq

/-- Python list slice xs[-10:]. -/
def lastTen (xs : List ContrastEntry) : List ContrastEntry :=
  xs.drop (xs.length - 10)

/-- SessionSpeechDaemon.update_calibrated_threshold, the recomputation:
new_threshold = max(0.05, min(0.4, baseline_rms * 1.5)). -/
def recomputeThreshold (base : ℚ) : ℚ :=
  max 0.05 (min 0.4 (base * 1.5))

/-- SessionSpeechDaemon.update_calibrated_threshold.  Returns unchanged when
the contrast window is empty or no baseline exists; otherwise replaces the
stored threshold exactly when the recomputed value differs from it by more
than 0.02. -/
def updateCalibratedThreshold (st : CalibState) : CalibState :=
  match st.baselineRms with
  | none => st
  | some base =>
    if st.contrastWindow.isEmpty then st
    else
      let newThreshold := recomputeThreshold base
      if |newThreshold - st.calibratedThreshold| > 0.02 then
        { st with calibratedThreshold := newThreshold }
      else st

/-- SessionSpeechDaemon.analyze_speech_contrast.  speechRms is the
pre-computed sqrt(mean(audio**2)) of the clip (explicit input, see header).
An observation is appended, the window truncated to the last 10 entries and
the threshold recomputed only when the clip RMS is strictly above
baseline * 1.2; otherwise the state is untouched. -/
def analyzeSpeechContrast (st : CalibState) (speechRms : ℚ) : CalibState :=
  match st.baselineRms with
  | none => st
  | some base =>
    if speechRms > base * 1.2 then
      let entry : ContrastEntry :=
        { speechRms := speechRms, contrastFactor := speechRms / base }
      let window := lastTen (st.contrastWindow ++ [entry])
      updateCalibratedThreshold { st with contrastWindow := window }
    else st

/-- Segment extraction shared by the transcription call sites: strip each
segment text and keep the nonempty ones, in emission order. -/
def extractSegments (segs : List String) : List String :=
  (segs.map String.trim).filter (fun t => !t.isEmpty)

/-- Observable outcome of SessionSpeechDaemon.transcribe_audio: the returned
results list, the updated calibration state, and whether
load_model_on_demand and model.transcribe were reached. -/
structure SessionTranscribeOut where
  results : List String
  calib : CalibState
  modelLoadInvoked : Bool
  transcribeInvoked : Bool
deriving DecidableEq

/-- SessionSpeechDaemon.transcribe_audio.  Inputs stand for the external
collaborators: rmsOf for the numpy RMS of the loaded clip, loadRes for the
soundfile read plus mono downmix (Except on a raising load), modelLoadOk
for the outcome of load_model_on_demand when reached, inference for the
segment texts produced by model.transcribe (Except on a raising model).
Every exception inside the try block is caught and yields an empty results
list; the activity/status bookkeeping carries no data and is omitted. -/
def transcribeAudioSession (rmsOf : Clip → ℚ) (calib : CalibState)
    (loadRes : Except String (Clip × ℕ)) (modelLoadOk : Bool)
    (inference : Except String (List String)) : SessionTranscribeOut :=
  match loadRes with
  | .error _ =>
      { results := [], calib := calib,
        modelLoadInvoked := false, transcribeInvoked := false }
  | .ok (clip, sampleRate) =>
      let calib2 := analyzeSpeechContrast calib (rmsOf clip)
      if checkAudioContent clip sampleRate = false then
        { results := [], calib := calib2,
          modelLoadInvoked := false, transcribeInvoked := false }
      else if modelLoadOk = false then
        { results := [], calib := calib2,
          modelLoadInvoked := true, transcribeInvoked := false }
      else
        match inference with
        | .error _ =>
            { results := [], calib := calib2,
              modelLoadInvoked := true, transcribeInvoked := true }
        | .ok segs =>
            { results := extractSegments segs, calib := calib2,
              modelLoadInvoked := true, transcribeInvoked := true }

/-- A parsed request file: id and audio_file through request.get (absent
keys give None), type through request.get with default transcribe. -/
structure Request where
  id : Option String
  reqType : String
  audioFile : Option String
deriving DecidableEq

/-- A response file payload as written by process_request.  For a
transcription request the results list is present; for a ping the pong
marker is set instead.  The timestamp, device and session_active fields
carry no control flow and are omitted. -/
structure Response where
  id : Option String
  results : Option (List String)
  pong : Bool
deriving DecidableEq

/-- Observable outcome of one SessionSpeechDaemon.process_request call:
the response file written (none when the outer except ran first), whether
the request file was deleted, whether the outer except handler ran, and
the calibration state after the call. -/
structure ProcessOutcome where
  response : Option Response
  requestDeleted : Bool
  caughtAtBoundary : Bool
  calib : CalibState
deriving DecidableEq

/-- SessionSpeechDaemon.process_request.  parseRes stands for the
json.load of the request file; writeOk and unlinkOk for the success of the
response write and the request unlink; typingOk for the per-segment
pyautogui calls, each wrapped in its own try block in the source so that a
typing failure has no observable effect here.  The whole body sits in one
try block whose except handler only logs: on any uncaught step failure
nothing is written and the request file survives. -/
def processRequest (rmsOf : Clip → ℚ) (calib : CalibState)
    (parseRes : Except String Request)
    (loadRes : Except String (Clip × ℕ)) (modelLoadOk : Bool)
    (inference : Except String (List String))
    (writeOk : Bool) (_typingOk : List Bool) (unlinkOk : Bool) :
    ProcessOutcome :=
  match parseRes with
  | .error _ =>
      { response := none, requestDeleted := false,
        caughtAtBoundary := true, calib := calib }
  | .ok req =>
      if req.reqType = ("ping") then
        let response : Response := { id := req.id, results := none, pong := true }
        if writeOk = false then
          { response := none, requestDeleted := false,
            caughtAtBoundary := true, calib := calib }
        else if unlinkOk = false then
          { response := some response, requestDeleted := false,
            caughtAtBoundary := true, calib := calib }
        else
          { response := some response, requestDeleted := true,
            caughtAtBoundary := false, calib := calib }
      else
        let out := transcribeAudioSession rmsOf calib loadRes modelLoadOk inference
        let response : Response :=
          { id := req.id, results := some out.results, pong := false }
        if writeOk = false then
          { response := none, requestDeleted := false,
            caughtAtBoundary := true, calib := out.calib }
        else if unlinkOk = false then
          { response := some response, requestDeleted := false,
            caughtAtBoundary := true, calib := out.calib }
        else
          { response := some response, requestDeleted := true,
            caughtAtBoundary := false, calib := out.calib }

/-- Daemon-loop state observable across iterations of
SessionSpeechDaemon.run: the shutdown flag and the responses written so
far.  The source keeps no per-request failure counter: this record is the
whole per-request bookkeeping the daemon maintains. -/
structure DaemonState where
  shutdownRequested : Bool
  responses : List Response
  calib : CalibState
deriving DecidableEq

/-- One iteration of the request-handling part of SessionSpeechDaemon.run
for one pending request file.  process_request never raises (its body is
fully wrapped), so the loop only accumulates the written response; no
branch of the loop body sets the shutdown flag. -/
def daemonLoopStep (st : DaemonState) (rmsOf : Clip → ℚ)
    (parseRes : Except String Request)
    (loadRes : Except String (Clip × ℕ)) (modelLoadOk : Bool)
    (inference : Except String (List String))
    (writeOk : Bool) (typingOk : List Bool) (unlinkOk : Bool) : DaemonState :=
  if st.shutdownRequested then st
  else
    let out := processRequest rmsOf st.calib parseRes loadRes modelLoadOk
      inference writeOk typingOk unlinkOk
    { shutdownRequested := st.shutdownRequested,
      responses :=
        match out.response with
        | some r => st.responses ++ [r]
        | none => st.responses,
      calib := out.calib }

/-- Outcome of the subprocess.run call on the external correction backend
in speech_daemon.py: a completed process with return code, stdout and
stderr; a TimeoutExpired raise; or any other raise from the call. -/
inductive BackendOutcome where
  | completed (returncode : Int) (stdout : String) (stderr : String)
  | timedOut
  | raised (msg : String)
deriving DecidableEq

/-- Quote stripping on the backend answer: drop one pair of surrounding
double quotes when both are present (Python corrected[1:-1]). -/
def stripQuotes (s : String) : String :=
  if s.startsWith ("\"") && s.endsWith ("\"") then
    (s.drop 1).dropRight 1
  else s

/-- The try-block body of
SpeechDaemon.correct_with_claude_limited_context.  exchangesRes stands for
context_parser.get_recent_exchanges (Except on a raise); prompt building
from the exchanges is pure string assembly and cannot fail.  A timed-out
or raising subprocess call propagates as an exception; a completed call
with nonzero return code falls back to the raw transcript inside the try
block. -/
def correctBody (exchangesRes : Except String (List (String × String)))
    (backendRun : BackendOutcome) (rawTranscript : String) :
    Except String String :=
  match exchangesRes with
  | .error e => .error e
  | .ok _ =>
      match backendRun with
      | .timedOut => .error ("TimeoutExpired")
      | .raised m => .error m
      | .completed rc out _err =>
          if rc = 0 then .ok (stripQuotes out.trim)
          else .ok rawTranscript

/-- SpeechDaemon.correct_with_claude_limited_context: the try body above
with the except handler that logs and returns the raw transcript. -/
def correctWithClaudeLimitedContext
    (exchangesRes : Except String (List (String × String)))
    (backendRun : BackendOutcome) (rawTranscript : String) : String :=
  match correctBody exchangesRes backendRun rawTranscript with
  | .ok s => s
  | .error _ => rawTranscript

/-- CONFIDENCE_THRESHOLD in SpeechDaemon.process_audio_request. -/
def confidenceThreshold : ℚ := 0.75

/-- The routing slice of the result dict built by
SpeechDaemon.process_audio_request, plus the number of backend subprocess
invocations performed while producing it. -/
structure RouteResult where
  raw : String
  corrected : String
  confidence : ℚ
  path : String
  backendInvocations : ℕ
deriving DecidableEq

/-- Number of subprocess.run invocations performed by
correct_with_claude_limited_context: zero when get_recent_exchanges raises
before the call, one otherwise (a timeout or raise still counts as the one
attempted invocation). -/
def backendCallCount
    (exchangesRes : Except String (List (String × String)))
    (_backendRun : BackendOutcome) : ℕ :=
  match exchangesRes with
  | .error _ => 0
  | .ok _ => 1

/-- The adaptive-correction branch of SpeechDaemon.process_audio_request:
confidence at or above the threshold takes the fast path without touching
the correction backend, anything below goes through
correct_with_claude_limited_context. -/
def routeTranscript (rawTranscript : String) (confidence : ℚ)
    (exchangesRes : Except String (List (String × String)))
    (backendRun : BackendOutcome) : RouteResult :=
  if confidence ≥ confidenceThreshold then
    { raw := rawTranscript, corrected := rawTranscript,
      confidence := confidence, path := ("FAST PATH"),
      backendInvocations := 0 }
  else
    { raw := rawTranscript,
      corrected := correctWithClaudeLimitedContext exchangesRes backendRun
        rawTranscript,
      confidence := confidence, path := ("LIMITED CONTEXT"),
      backendInvocations := backendCallCount exchangesRes backendRun }

/-- Peak normalization step of AudioPreprocessor.apply_noise_cancelling:
scale to 0.95 headroom when the peak is positive. -/
def peakNormalize (xs : Clip) : Clip :=
  let maxVal := maxAbs xs
  if maxVal > 0 then xs.map (fun x => x * ((0.95 : ℚ) / maxVal)) else xs

/-- Fallible peak normalization: numpy max raises on an empty buffer. -/
def peakNormalizeE (xs : Clip) : Except String Clip :=
  if xs.isEmpty then .error ("zero-size array to reduction operation")
  else .ok (peakNormalize xs)

/-- Noise-estimation window of apply_noise_cancelling:
min(int(0.2 * sample_rate), len(audio) // 4), evaluated on the buffer that
leaves the high-pass filter.  int(0.2 * sample_rate) is the floor of a
fifth of the sample rate for machine integer rates. -/
def noiseSampleCount (sampleRate : ℕ) (filteredLen : ℕ) : ℕ :=
  min (sampleRate / 5) (filteredLen / 4)

/-- The try-block body of AudioPreprocessor.apply_noise_cancelling.
highPass stands for the scipy butter plus filtfilt step and
spectralSubtract for the fft / subtraction / ifft block on the given noise
window, both fallible external DSP kernels; the spectral step runs only
when the noise window holds more than 100 samples; normalization is
embedded concretely. -/
def applyNoiseCancellingE (highPass : Clip → Except String Clip)
    (spectralSubtract : Clip → ℕ → Except String Clip)
    (clip : Clip) (sampleRate : ℕ) : Except String Clip :=
  match highPass clip with
  | .error e => .error e
  | .ok filtered =>
    let windowLen := noiseSampleCount sampleRate filtered.length
    match (if windowLen > 100 then spectralSubtract filtered windowLen
           else .ok filtered) with
    | .error e => .error e
    | .ok subtracted => peakNormalizeE subtracted

/-- AudioPreprocessor.apply_noise_cancelling: the try body above with the
except handler that logs and returns the original (copied) buffer. -/
def applyNoiseCancelling (highPass : Clip → Except String Clip)
    (spectralSubtract : Clip → ℕ → Except String Clip)
    (clip : Clip) (sampleRate : ℕ) : Clip :=
  match applyNoiseCancellingE highPass spectralSubtract clip sampleRate with
  | .ok out => out
  | .error _ => clip

/-- Model-load configuration passed to the WhisperModel constructor. -/
structure LoadConfig where
  modelSize : String
  device : String
  computeType : String
deriving DecidableEq

/-- SpeechEngine state relevant to load_model and transcribe_audio. -/
structure EngineState where
  isModelLoaded : Bool
  modelSize : String
  device : String
deriving DecidableEq

/-- Outcome of SpeechEngine.load_model: the returned boolean, the state
afterwards, and every WhisperModel constructor invocation performed, in
order, with the configuration each one received. -/
structure LoadOutcome where
  success : Bool
  state : EngineState
  attempts : List LoadConfig
deriving DecidableEq

/-- SpeechEngine.load_model.  loader stands for the WhisperModel
constructor (true on a successful construction); whisperAvailable is
the module availability guard.  A cached model short-circuits; otherwise exactly one
construction is attempted, float16 on cuda and int8 elsewhere, and a
raising construction is caught and reported as a plain False with the
state unchanged. -/
def loadModel (loader : LoadConfig → Bool) (st : EngineState)
    (whisperAvailable : Bool) : LoadOutcome :=
  if st.isModelLoaded then
    { success := true, state := st, attempts := [] }
  else if whisperAvailable = false then
    { success := false, state := st, attempts := [] }
  else
    let cfg : LoadConfig :=
      if st.device = ("cuda") then
        { modelSize := st.modelSize, device := st.device,
          computeType := ("float16") }
      else
        { modelSize := st.modelSize, device := st.device,
          computeType := ("int8") }
    if loader cfg then
      { success := true, state := { st with isModelLoaded := true },
        attempts := [cfg] }
    else
      { success := false, state := st, attempts := [cfg] }

/-- TranscriptionResult dataclass of speech_engine.py (the wall-clock
processing_time field is omitted). -/
structure TranscriptionResult where
  segments : List String
  deviceUsed : String
  modelSizeUsed : String
  success : Bool
  errorMessage : Option String
deriving DecidableEq

/-- Outcome of SpeechEngine.transcribe_audio together with the engine
state afterwards and the constructor invocations performed on the way. -/
structure EngineTranscribeOut where
  result : TranscriptionResult
  state : EngineState
  attempts : List LoadConfig
deriving DecidableEq

/-- SpeechEngine.transcribe_audio.  An unloaded model triggers the lazy
load_model call; when that fails the request is reported fatal at once
(success False, message Model loading failed) with no further load
attempt.  inference stands for the model.transcribe call on the loaded
model (Except on a raise, which the except handler converts into a
success False result carrying the message). -/
def transcribeAudioEngine (loader : LoadConfig → Bool) (st : EngineState)
    (whisperAvailable : Bool) (inference : Except String (List String)) :
    EngineTranscribeOut :=
  let afterLoad :=
    if st.isModelLoaded = false then loadModel loader st whisperAvailable
    else { success := true, state := st, attempts := [] }
  if afterLoad.success = false then
    { result :=
        { segments := [], deviceUsed := st.device,
          modelSizeUsed := st.modelSize, success := false,
          errorMessage := some ("Model loading failed") },
      state := afterLoad.state, attempts := afterLoad.attempts }
  else
    match inference with
    | .error e =>
        { result :=
            { segments := [], deviceUsed := st.device,
              modelSizeUsed := st.modelSize, success := false,
              errorMessage := some e },
          state := afterLoad.state, attempts := afterLoad.attempts }
    | .ok segs =>
        { result :=
            { segments := extractSegments segs, deviceUsed := st.device,
              modelSizeUsed := st.modelSize, success := true,
              errorMessage := none },
          state := afterLoad.state, attempts := afterLoad.attempts }

/-- State read and written by SessionSpeechDaemon.monitor_session_timeout. -/
structure SessionMonState where
  lastActivity : ℚ
  sessionTimeout : ℚ
  isModelLoaded : Bool
  shutdownRequested : Bool
deriving DecidableEq

/-- One wake-up of SessionSpeechDaemon.monitor_session_timeout at
wall-clock time now.  The source shuts the session down only when the
inactivity exceeds the timeout AND the model is currently loaded;
shutdown_session unloads the model and sets the shutdown flag. -/
def monitorSessionTimeoutTick (st : SessionMonState) (now : ℚ) :
    SessionMonState :=
  if st.shutdownRequested then st
  else
    let inactiveTime := now - st.lastActivity
    if inactiveTime > st.sessionTimeout && st.isModelLoaded then
      { st with isModelLoaded := false, shutdownRequested := true }
    else st

/-- State read and written by the SessionCoordinator monitor loop. -/
structure CoordState where
  lastActivity : ℚ
  sessionTimeout : ℚ
  shutdownRequested : Bool
deriving DecidableEq

/-- SessionCoordinator.should_shutdown_due_to_timeout at time now. -/
def shouldShutdownDueToTimeout (st : CoordState) (now : ℚ) : Bool :=
  if st.shutdownRequested then true
  else decide (now - st.lastActivity > st.sessionTimeout)

/-- One wake-up of SessionTimeoutMonitor private monitor loop at time now:
request_shutdown is called exactly when should_shutdown_due_to_timeout
holds. -/
def coordinatorMonitorTick (st : CoordState) (now : ℚ) : CoordState :=
  if st.shutdownRequested then st
  else if shouldShutdownDueToTimeout st now then
    { st with shutdownRequested := true }
  else st

/-! Helper lemmas (shared; not tied to any one claim). -/

theorem peakNormalize_length (xs : Clip) :
    (peakNormalize xs).length = xs.length := by
  dsimp only [peakNormalize]
  split <;> simp

/-- The daemon content pre-filter agrees with the preprocessor analysis
for a positive sample rate (their except branches differ only on the
raising sample_rate = 0 input). -/
theorem checkAudioContent_eq_hasContent (clip : Clip) (sampleRate : ℕ)
    (h : 0 < sampleRate) :
    checkAudioContent clip sampleRate =
      (analyzeAudioContent clip sampleRate).hasContent := by
  have hne : sampleRate ≠ 0 := Nat.pos_iff_ne_zero.mp h
  unfold checkAudioContent analyzeAudioContent
  by_cases hc : clip.isEmpty
  · have hlen : clip.length = 0 := by
      simpa [List.isEmpty_iff_length_eq_zero] using hc
    have hdur : ((clip.length : ℚ) / (sampleRate : ℚ)) < minDurationSeconds := by
      rw [hlen]
      norm_num [minDurationSeconds]
    simp [hc, hne, hdur]
  · simp only [hc, hne, Bool.false_eq_true, if_false, beq_iff_eq, if_neg hne]
    by_cases h1 : ((clip.length : ℚ) / (sampleRate : ℚ)) < minDurationSeconds
    · simp [hne, h1, not_le.mpr h1]
    · by_cases h2 : meanSq clip < minRmsThreshold ^ 2
      · simp [hne, h1, h2, not_le.mpr h2]
      · simp [hne, h1, h2, not_lt.mp h1, not_lt.mp h2]

/-! Claim theorems. -/

/-- Claim C5: for every audio clip the content analysis flags has_content
exactly when the duration is at least 0.15 seconds and the RMS level is at
least 0.0005 (stated on the squared RMS, equivalent for the nonnegative
RMS); and whenever has_content is false for the audio of a request, the
session pipeline returns an empty results list without invoking
load_model_on_demand or the transcription model. -/
theorem transcription_skipped_on_empty_audio (clip : Clip) (sampleRate : ℕ)
    (rmsOf : Clip → ℚ) (calib : CalibState) (modelLoadOk : Bool)
    (inference : Except String (List String)) (h : 0 < sampleRate) :
    ((analyzeAudioContent clip sampleRate).hasContent = true ↔
      ((clip.length : ℚ) / (sampleRate : ℚ) ≥ minDurationSeconds ∧
        meanSq clip ≥ minRmsThreshold ^ 2)) ∧
    ((analyzeAudioContent clip sampleRate).hasContent = false →
      (transcribeAudioSession rmsOf calib (.ok (clip, sampleRate)) modelLoadOk
          inference).results = [] ∧
      (transcribeAudioSession rmsOf calib (.ok (clip, sampleRate)) modelLoadOk
          inference).modelLoadInvoked = false ∧
      (transcribeAudioSession rmsOf calib (.ok (clip, sampleRate)) modelLoadOk
          inference).transcribeInvoked = false) := by
  have hne : sampleRate ≠ 0 := Nat.pos_iff_ne_zero.mp h
  constructor
  · unfold analyzeAudioContent
    by_cases hc : clip.isEmpty
    · have hlen : clip.length = 0 := by
        simpa [List.isEmpty_iff_length_eq_zero] using hc
      have hdur : ¬ ((clip.length : ℚ) / (sampleRate : ℚ) ≥ minDurationSeconds) := by
        rw [hlen]
        norm_num [minDurationSeconds]
      simp [hc, hdur]
    · simp [hc, hne, ge_iff_le]
  · intro hfalse
    have hcheck : checkAudioContent clip sampleRate = false := by
      rw [checkAudioContent_eq_hasContent clip sampleRate h, hfalse]
    refine ⟨?_, ?_, ?_⟩ <;>
      simp [transcribeAudioSession, hcheck]

/-- Witness for C5 at a concrete quiet clip: one sample of amplitude
1/10000 at 16 kHz is both too short and too quiet, so the pipeline skips
the model. -/
theorem transcription_skipped_on_empty_audio_witness :
    (transcribeAudioSession (fun _ => 0)
        { baselineRms := none, contrastWindow := [],
          calibratedThreshold := 1/5 }
        (.ok ([1/10000], 16000)) true (.ok [(" hi ")])).results = [] ∧
    (transcribeAudioSession (fun _ => 0)
        { baselineRms := none, contrastWindow := [],
          calibratedThreshold := 1/5 }
        (.ok ([1/10000], 16000)) true (.ok [(" hi ")])).modelLoadInvoked = false ∧
    (transcribeAudioSession (fun _ => 0)
        { baselineRms := none, contrastWindow := [],
          calibratedThreshold := 1/5 }
        (.ok ([1/10000], 16000)) true (.ok [(" hi ")])).transcribeInvoked = false :=
  (transcription_skipped_on_empty_audio [1/10000] 16000 (fun _ => 0)
    { baselineRms := none, contrastWindow := [], calibratedThreshold := 1/5 }
    true (.ok [(" hi ")]) (by norm_num)).2
    (by norm_num [analyzeAudioContent, meanSq, sumSq, minDurationSeconds,
      minRmsThreshold])

/-- Claim C3: a transcript whose confidence is at least 0.75 is routed
through the fast path character for character unchanged, with the fast
path recorded and zero invocations of the external correction backend. -/
theorem fast_path_on_high_confidence (rawTranscript : String)
    (confidence : ℚ)
    (exchangesRes : Except String (List (String × String)))
    (backendRun : BackendOutcome)
    (h : confidence ≥ (0.75 : ℚ)) :
    (routeTranscript rawTranscript confidence exchangesRes backendRun).corrected =
      rawTranscript ∧
    (routeTranscript rawTranscript confidence exchangesRes backendRun).path =
      ("FAST PATH") ∧
    (routeTranscript rawTranscript confidence exchangesRes backendRun).backendInvocations =
      0 := by
  have h2 : confidence ≥ confidenceThreshold := h
  simp [routeTranscript, h2]

/-- Witness for C3 at confidence 9/10. -/
theorem fast_path_on_high_confidence_witness :
    (routeTranscript ("hello world") (9/10) (.ok [])
        (.completed 0 ("changed") (""))).corrected = ("hello world") ∧
    (routeTranscript ("hello world") (9/10) (.ok [])
        (.completed 0 ("changed") (""))).path = ("FAST PATH") ∧
    (routeTranscript ("hello world") (9/10) (.ok [])
        (.completed 0 ("changed") (""))).backendInvocations = 0 :=
  fast_path_on_high_confidence ("hello world") (9/10) (.ok [])
    (.completed 0 ("changed") ("")) (by norm_num)

/-- Failure of the correction backend call in speech_daemon.py: the
subprocess timed out, raised, or completed with a nonzero return code. -/
def backendFailed : BackendOutcome → Prop
  | .completed rc _ _ => rc ≠ 0
  | .timedOut => True
  | .raised _ => True

/-- Claim C4: for confidence below 0.75, when the correction backend times
out, exits nonzero or raises, the routing returns the original transcript;
and the except wrapper of the correction step converts every raising body
into the raw transcript, so correction failure never raises to the caller
or fails the request. -/
theorem correction_fallback_on_backend_failure (rawTranscript : String)
    (confidence : ℚ)
    (exchangesRes : Except String (List (String × String)))
    (backendRun : BackendOutcome)
    (h1 : confidence < (0.75 : ℚ)) (h2 : backendFailed backendRun) :
    (routeTranscript rawTranscript confidence exchangesRes backendRun).corrected =
      rawTranscript ∧
    (∀ e, correctBody exchangesRes backendRun rawTranscript = .error e →
      correctWithClaudeLimitedContext exchangesRes backendRun rawTranscript =
        rawTranscript) := by
  have hlt : ¬ (confidence ≥ confidenceThreshold) := not_le.mpr h1
  constructor
  · simp only [routeTranscript, hlt, if_false]
    cases exchangesRes with
    | error e => simp [correctWithClaudeLimitedContext, correctBody]
    | ok exchanges =>
      cases backendRun with
      | timedOut => simp [correctWithClaudeLimitedContext, correctBody]
      | raised m => simp [correctWithClaudeLimitedContext, correctBody]
      | completed rc out err =>
        have hrc : rc ≠ 0 := h2
        simp [correctWithClaudeLimitedContext, correctBody, hrc]
  · intro e he
    simp [correctWithClaudeLimitedContext, he]

/-- Witness for C4 at a concrete timed-out backend call. -/
theorem correction_fallback_on_backend_failure_witness :
    (routeTranscript ("raw text") (1/2) (.ok []) BackendOutcome.timedOut).corrected =
      ("raw text") :=
  (correction_fallback_on_backend_failure ("raw text") (1/2) (.ok [])
    BackendOutcome.timedOut (by norm_num) trivial).1

/-- Claim C6: under the documented contracts of the external DSP kernels
(filtfilt and the fft / subtraction / ifft block preserve buffer length on
success), noise cancelling returns a buffer of exactly the input length;
and whenever any internal step raises, the except handler returns the
original input clip unchanged instead of propagating. -/
theorem denoise_length_preserved_and_failure_passthrough
    (highPass : Clip → Except String Clip)
    (spectralSubtract : Clip → ℕ → Except String Clip)
    (clip : Clip) (sampleRate : ℕ)
    (hHP : ∀ xs ys, highPass xs = .ok ys → ys.length = xs.length)
    (hSP : ∀ xs n ys, spectralSubtract xs n = .ok ys → ys.length = xs.length) :
    (applyNoiseCancelling highPass spectralSubtract clip sampleRate).length =
      clip.length ∧
    (∀ e, applyNoiseCancellingE highPass spectralSubtract clip sampleRate =
        .error e →
      applyNoiseCancelling highPass spectralSubtract clip sampleRate = clip) := by
  constructor
  · unfold applyNoiseCancelling applyNoiseCancellingE
    cases hhp : highPass clip with
    | error e => simp
    | ok filtered =>
      have hflen : filtered.length = clip.length := hHP clip filtered hhp
      cases hsub : (if noiseSampleCount sampleRate filtered.length > 100 then
          spectralSubtract filtered (noiseSampleCount sampleRate filtered.length)
        else .ok filtered) with
      | error e => simp [hsub]
      | ok subtracted =>
        have hslen : subtracted.length = clip.length := by
          by_cases hw : noiseSampleCount sampleRate filtered.length > 100
          · rw [if_pos hw] at hsub
            rw [hSP filtered _ subtracted hsub, hflen]
          · rw [if_neg hw] at hsub
            cases hsub
            exact hflen
        simp only [hsub]
        unfold peakNormalizeE
        by_cases hemp : subtracted.isEmpty
        · simp [hemp]
        · simp [hemp, peakNormalize_length, hslen]
  · intro e he
    unfold applyNoiseCancelling
    rw [he]

/-- Witness for C6 with identity kernels on a concrete two-sample clip. -/
theorem denoise_length_preserved_and_failure_passthrough_witness :
    (applyNoiseCancelling (fun xs => .ok xs) (fun xs _ => .ok xs)
        ([1, 2]) 16000).length = ([1, 2] : Clip).length :=
  (denoise_length_preserved_and_failure_passthrough (fun xs => .ok xs)
    (fun xs _ => .ok xs) ([1, 2]) 16000
    (fun xs ys h => by cases h; rfl)
    (fun xs n ys h => by cases h; rfl)).1

/-- Claim C10: when the noise-estimation window
min(int(0.2 * sample_rate), len // 4) holds at most 100 samples, noise
cancelling silently skips the spectral-subtraction step: the result is
exactly high-pass filtering followed by peak normalization, identical for
every spectral-subtraction kernel, with no error surfaced to the caller. -/
theorem denoise_spectral_skip_on_small_window
    (highPass : Clip → Except String Clip)
    (spectralOne spectralTwo : Clip → ℕ → Except String Clip)
    (clip filtered : Clip) (sampleRate : ℕ)
    (hHP : highPass clip = .ok filtered)
    (hLen : filtered.length = clip.length)
    (hWin : noiseSampleCount sampleRate clip.length ≤ 100)
    (hNE : clip ≠ []) :
    applyNoiseCancelling highPass spectralOne clip sampleRate =
      peakNormalize filtered ∧
    applyNoiseCancelling highPass spectralOne clip sampleRate =
      applyNoiseCancelling highPass spectralTwo clip sampleRate := by
  have hw : ¬ (noiseSampleCount sampleRate filtered.length > 100) := by
    rw [hLen]
    omega
  have hfe : ¬ (filtered.isEmpty = true) := by
    intro habs
    have : filtered.length = 0 := by
      simpa [List.isEmpty_iff_length_eq_zero] using habs
    rw [hLen] at this
    exact hNE (List.length_eq_zero.mp this)
  have hone : applyNoiseCancelling highPass spectralOne clip sampleRate =
      peakNormalize filtered := by
    unfold applyNoiseCancelling applyNoiseCancellingE
    rw [hHP]
    simp [hw, peakNormalizeE, hfe]
  have htwo : applyNoiseCancelling highPass spectralTwo clip sampleRate =
      peakNormalize filtered := by
    unfold applyNoiseCancelling applyNoiseCancellingE
    rw [hHP]
    simp [hw, peakNormalizeE, hfe]
  exact ⟨hone, htwo ▸ hone⟩

/-- Witness for C10: a four-sample clip at 16 kHz has a one-sample noise
window, so spectral subtraction is skipped for any kernel. -/
theorem denoise_spectral_skip_on_small_window_witness :
    applyNoiseCancelling (fun _ => .ok ([1, 2, 3, 4]))
        (fun xs _ => .ok xs) ([1, 2, 3, 4]) 16000 =
      peakNormalize ([1, 2, 3, 4]) ∧
    applyNoiseCancelling (fun _ => .ok ([1, 2, 3, 4]))
        (fun xs _ => .ok xs) ([1, 2, 3, 4]) 16000 =
      applyNoiseCancelling (fun _ => .ok ([1, 2, 3, 4]))
        (fun _ _ => .error ("corrupt fft")) ([1, 2, 3, 4]) 16000 :=
  denoise_spectral_skip_on_small_window (fun _ => .ok ([1, 2, 3, 4]))
    (fun xs _ => .ok xs) (fun _ _ => .error ("corrupt fft"))
    ([1, 2, 3, 4]) ([1, 2, 3, 4]) 16000 rfl rfl (by decide) (by decide)

theorem updateCalibratedThreshold_contrastWindow (st : CalibState) :
    (updateCalibratedThreshold st).contrastWindow = st.contrastWindow := by
  unfold updateCalibratedThreshold
  rcases h : st.baselineRms with _ | base
  · rfl
  · dsimp only
    split
    · rfl
    · split <;> rfl

theorem lastTen_length (xs : List ContrastEntry) :
    (lastTen xs).length = min xs.length 10 := by
  unfold lastTen
  rw [List.length_drop]
  omega

/-- Claim C7: with a collected baseline and a nonempty contrast window,
the recomputed VAD threshold is baseline * 1.5 clamped to [0.05, 0.4]
(it always lies in that range and equals baseline * 1.5 whenever that
product already does); the stored threshold is replaced exactly when the
recomputed value differs from the current one by more than 0.02; and an
observation enters the ten-entry window only when the clip RMS exceeds the
baseline by more than 20 percent. -/
theorem calibrator_threshold_and_window (st : CalibState) (base : ℚ)
    (speechRms : ℚ) (hb : st.baselineRms = some base)
    (hw : st.contrastWindow ≠ []) :
    ((0.05 : ℚ) ≤ recomputeThreshold base ∧
      recomputeThreshold base ≤ (0.4 : ℚ) ∧
      ((0.05 : ℚ) ≤ base * 1.5 → base * 1.5 ≤ (0.4 : ℚ) →
        recomputeThreshold base = base * 1.5)) ∧
    (updateCalibratedThreshold st).calibratedThreshold =
      (if |recomputeThreshold base - st.calibratedThreshold| > (0.02 : ℚ)
       then recomputeThreshold base else st.calibratedThreshold) ∧
    (speechRms ≤ base * 1.2 → analyzeSpeechContrast st speechRms = st) ∧
    (speechRms > base * 1.2 →
      (analyzeSpeechContrast st speechRms).contrastWindow =
        lastTen (st.contrastWindow ++
          [{ speechRms := speechRms, contrastFactor := speechRms / base }]) ∧
      (analyzeSpeechContrast st speechRms).contrastWindow.length =
        min (st.contrastWindow.length + 1) 10) := by
  have hwB : ¬ (st.contrastWindow.isEmpty = true) := by
    simpa [List.isEmpty_iff] using hw
  refine ⟨⟨le_max_left _ _, ?_, ?_⟩, ?_, ?_, ?_⟩
  · unfold recomputeThreshold
    exact max_le (by norm_num) (min_le_left _ _)
  · intro hlo hhi
    unfold recomputeThreshold
    rw [min_eq_right hhi, max_eq_right hlo]
  · unfold updateCalibratedThreshold
    rw [hb]
    dsimp only
    rw [if_neg hwB]
    by_cases hd : |recomputeThreshold base - st.calibratedThreshold| > (0.02 : ℚ)
    · rw [if_pos hd, if_pos hd]
    · rw [if_neg hd, if_neg hd]
  · intro hle
    unfold analyzeSpeechContrast
    rw [hb]
    dsimp only
    rw [if_neg (not_lt.mpr hle)]
  · intro hgt
    have hwin : (analyzeSpeechContrast st speechRms).contrastWindow =
        lastTen (st.contrastWindow ++
          [{ speechRms := speechRms, contrastFactor := speechRms / base }]) := by
      unfold analyzeSpeechContrast
      rw [hb]
      dsimp only
      rw [if_pos hgt, updateCalibratedThreshold_contrastWindow]
    refine ⟨hwin, ?_⟩
    rw [hwin, lastTen_length, List.length_append, List.length_singleton]

/-- Witness for C7: baseline 1/10, one window entry, stored threshold 1/5;
the recomputed threshold 3/20 replaces the stored one (delta 0.05 exceeds
0.02), and a loud clip (RMS 3/10 against the 1.2 * baseline margin) is
recorded in the window. -/
theorem calibrator_threshold_and_window_witness :
    (updateCalibratedThreshold
        { baselineRms := some (1/10),
          contrastWindow := [{ speechRms := 1, contrastFactor := 10 }],
          calibratedThreshold := 1/5 }).calibratedThreshold =
      (if |recomputeThreshold (1/10) - (1/5 : ℚ)| > (0.02 : ℚ)
       then recomputeThreshold (1/10) else (1/5 : ℚ)) :=
  (calibrator_threshold_and_window
    { baselineRms := some (1/10),
      contrastWindow := [{ speechRms := 1, contrastFactor := 10 }],
      calibratedThreshold := 1/5 }
    (1/10) (3/10) rfl (by decide)).2.1

/-- Claim C2: for every transcribe request that parses, whatever the
pipeline components do (audio load raising, model load failing, inference
raising, any typing outcome, the unlink raising), the request processor
writes exactly the response carrying the results list produced by the
transcription step — a populated or an empty list — and no iteration of
the daemon loop ever flips the shutdown flag or escapes with an
exception, for any request and any component outcome. -/
theorem request_processor_absorbs_component_failures (rmsOf : Clip → ℚ)
    (calib : CalibState) (req : Request)
    (loadRes : Except String (Clip × ℕ)) (modelLoadOk : Bool)
    (inference : Except String (List String)) (typingOk : List Bool)
    (unlinkOk : Bool) (hT : req.reqType ≠ ("ping")) :
    (processRequest rmsOf calib (.ok req) loadRes modelLoadOk inference true
        typingOk unlinkOk).response =
      some { id := req.id,
             results := some (transcribeAudioSession rmsOf calib loadRes
               modelLoadOk inference).results,
             pong := false } ∧
    (∀ st parseRes loadRes2 modelLoadOk2 inference2 writeOk2 typingOk2
        unlinkOk2,
      (daemonLoopStep st rmsOf parseRes loadRes2 modelLoadOk2 inference2
          writeOk2 typingOk2 unlinkOk2).shutdownRequested =
        st.shutdownRequested) := by
  constructor
  · unfold processRequest
    dsimp only
    rw [if_neg hT]
    cases unlinkOk <;> simp
  · intro st parseRes loadRes2 modelLoadOk2 inference2 writeOk2 typingOk2
      unlinkOk2
    unfold daemonLoopStep
    split
    · rfl
    · rfl

/-- Witness for C2: a concrete transcribe request whose audio load raises
still gets a response with an (empty) results list. -/
theorem request_processor_absorbs_component_failures_witness :
    (processRequest (fun _ => 0)
        { baselineRms := none, contrastWindow := [],
          calibratedThreshold := 1/5 }
        (.ok { id := some ("req-1"), reqType := ("transcribe"),
               audioFile := some ("/tmp/a.wav") })
        (.error ("soundfile read failed")) true (.ok [(" hi ")]) true
        [false] true).response =
      some { id := some ("req-1"),
             results := some (transcribeAudioSession (fun _ => 0)
               { baselineRms := none, contrastWindow := [],
                 calibratedThreshold := 1/5 }
               (.error ("soundfile read failed")) true (.ok [(" hi ")])).results,
             pong := false } :=
  (request_processor_absorbs_component_failures (fun _ => 0)
    { baselineRms := none, contrastWindow := [], calibratedThreshold := 1/5 }
    { id := some ("req-1"), reqType := ("transcribe"),
      audioFile := some ("/tmp/a.wav") }
    (.error ("soundfile read failed")) true (.ok [(" hi ")]) [false] true
    (by decide)).1

/-- Fixed inputs of the C1 counterexample run: a request file whose JSON
parse raises, resubmitted on every poll tick. -/
def c1Step (st : DaemonState) : DaemonState :=
  daemonLoopStep st (fun _ => 0) (.error ("Expecting value: line 1 column 1"))
    (.error ("no audio")) false (.error ("no model")) true [] true

/-- Initial daemon state of the C1 counterexample run. -/
def c1Start : DaemonState :=
  { shutdownRequested := false, responses := [],
    calib := { baselineRms := some (1/100), contrastWindow := [],
               calibratedThreshold := 1/5 } }

/-- n poll ticks of the daemon loop on the same failing request. -/
def c1Run : ℕ → DaemonState
  | 0 => c1Start
  | n + 1 => c1Step (c1Run n)

/-- Counterexample to claim C1: the same malformed request identifier
fails five consecutive times — past any small bound such as 3 — yet no
error response is ever written and requestShutdown never fires; the
source keeps no failure counter at all, so the circuit breaker the claim
describes does not exist. -/
theorem no_failure_counter_counterexample :
    (c1Run 5).shutdownRequested = false ∧ (c1Run 5).responses = [] := by
  constructor <;> rfl

/-- Claim C1 as amended: when processing a request raises, process_request
only logs — it writes no (error) response, does not delete the request
file, and leaves the daemon state untouched, so arbitrarily many repeated
failures of the same request identifier never trigger requestShutdown. -/
theorem failing_request_leaves_daemon_unchanged (st : DaemonState)
    (msg : String) (rmsOf : Clip → ℚ)
    (loadRes : Except String (Clip × ℕ)) (modelLoadOk : Bool)
    (inference : Except String (List String)) (writeOk : Bool)
    (typingOk : List Bool) (unlinkOk : Bool) :
    processRequest rmsOf st.calib (.error msg) loadRes modelLoadOk inference
        writeOk typingOk unlinkOk =
      { response := none, requestDeleted := false, caughtAtBoundary := true,
        calib := st.calib } ∧
    daemonLoopStep st rmsOf (.error msg) loadRes modelLoadOk inference
        writeOk typingOk unlinkOk = st ∧
    (∀ n, (fun s => daemonLoopStep s rmsOf (.error msg) loadRes modelLoadOk
        inference writeOk typingOk unlinkOk)^[n] st = st) := by
  have hstep : ∀ s : DaemonState, daemonLoopStep s rmsOf (.error msg) loadRes
      modelLoadOk inference writeOk typingOk unlinkOk = s := by
    intro s
    unfold daemonLoopStep
    split
    · rfl
    · unfold processRequest
      rfl
  refine ⟨rfl, hstep st, ?_⟩
  intro n
  induction n with
  | zero => rfl
  | succ k ih => rw [Function.iterate_succ_apply, hstep st, ih]

/-- The fresh-engine configuration of the C8 counterexample: large-v3 on
the cuda device, model not yet loaded, faster-whisper importable. -/
def c8Engine : EngineState :=
  { isModelLoaded := false, modelSize := ("large-v3"), device := ("cuda") }

/-- Counterexample to claim C8: with a constructor that always raises, the
transcription request performs exactly one load attempt — at the primary
large-v3 / cuda / float16 configuration, never a degraded one — and
reports the failure as fatal immediately, with no retry against a smaller
model or a CPU path. -/
theorem no_degraded_retry_counterexample :
    (transcribeAudioEngine (fun _ => false) c8Engine true
        (.ok [])).attempts =
      [{ modelSize := ("large-v3"), device := ("cuda"),
         computeType := ("float16") }] ∧
    (transcribeAudioEngine (fun _ => false) c8Engine true
        (.ok [])).result.success = false ∧
    (transcribeAudioEngine (fun _ => false) c8Engine true
        (.ok [])).result.errorMessage = some ("Model loading failed") := by
  refine ⟨?_, rfl, rfl⟩
  rfl

/-- Claim C8 as amended: when the lazy model load of a transcription
request fails, the failure is reported as fatal for that request at once
(success false, message Model loading failed) after at most the single
load attempt at the configured model size and device; no second attempt
against a degraded configuration is made. -/
theorem load_failure_reported_without_retry (loader : LoadConfig → Bool)
    (st : EngineState) (whisperAvailable : Bool)
    (inference : Except String (List String))
    (h1 : st.isModelLoaded = false)
    (h2 : (loadModel loader st whisperAvailable).success = false) :
    (transcribeAudioEngine loader st whisperAvailable inference).result.success =
      false ∧
    (transcribeAudioEngine loader st whisperAvailable
        inference).result.errorMessage = some ("Model loading failed") ∧
    (transcribeAudioEngine loader st whisperAvailable
        inference).attempts.length ≤ 1 ∧
    (∀ cfg ∈ (transcribeAudioEngine loader st whisperAvailable
        inference).attempts,
      cfg.modelSize = st.modelSize ∧ cfg.device = st.device) := by
  have hattempts : ∀ cfg ∈ (loadModel loader st whisperAvailable).attempts,
      cfg.modelSize = st.modelSize ∧ cfg.device = st.device := by
    intro cfg hcfg
    unfold loadModel at hcfg
    rw [if_neg (by rw [h1]; exact Bool.false_ne_true)] at hcfg
    by_cases hwa : whisperAvailable = false
    · rw [if_pos hwa] at hcfg
      simp at hcfg
    · rw [if_neg hwa] at hcfg
      dsimp only at hcfg
      by_cases hdev : st.device = ("cuda")
      · rw [if_pos hdev] at hcfg
        split at hcfg <;> simp_all
      · rw [if_neg hdev] at hcfg
        split at hcfg <;> simp_all
  have hlen : (loadModel loader st whisperAvailable).attempts.length ≤ 1 := by
    unfold loadModel
    rw [if_neg (by rw [h1]; exact Bool.false_ne_true)]
    by_cases hwa : whisperAvailable = false
    · rw [if_pos hwa]
      simp
    · rw [if_neg hwa]
      dsimp only
      split <;> split <;> simp
  unfold transcribeAudioEngine
  rw [if_pos h1]
  dsimp only
  rw [if_pos h2]
  exact ⟨rfl, rfl, hlen, hattempts⟩

/-- Witness for the amended C8 at the concrete failing constructor. -/
theorem load_failure_reported_without_retry_witness :
    (transcribeAudioEngine (fun _ => false) c8Engine true
        (.error ("never reached"))).result.success = false :=
  (load_failure_reported_without_retry (fun _ => false) c8Engine true
    (.error ("never reached")) rfl rfl).1

/-- Counterexample to claim C9: the session daemon monitor wakes at time
1000 with last activity at 0 and timeout 600 — inactivity far past the
timeout — but with no model loaded it does not request shutdown on that
tick (the source also requires is_model_loaded). -/
theorem idle_without_model_no_shutdown_counterexample :
    (monitorSessionTimeoutTick
        { lastActivity := 0, sessionTimeout := 600, isModelLoaded := false,
          shutdownRequested := false } 1000).shutdownRequested = false := by
  simp [monitorSessionTimeoutTick]

/-- Claim C9 as amended: on a wake-up that observes now - lastActivity
above the timeout, the coordinator monitor always requests shutdown within
that tick, while the session daemon monitor does so only when the model is
loaded — with the model unloaded the tick leaves the daemon state
completely unchanged. -/
theorem idle_timeout_shutdown_on_tick (cst : CoordState)
    (sst : SessionMonState) (now : ℚ) :
    (cst.shutdownRequested = false →
      now - cst.lastActivity > cst.sessionTimeout →
      (coordinatorMonitorTick cst now).shutdownRequested = true) ∧
    (sst.shutdownRequested = false →
      now - sst.lastActivity > sst.sessionTimeout →
      sst.isModelLoaded = true →
      (monitorSessionTimeoutTick sst now).shutdownRequested = true ∧
      (monitorSessionTimeoutTick sst now).isModelLoaded = false) ∧
    (sst.isModelLoaded = false → monitorSessionTimeoutTick sst now = sst) := by
  refine ⟨?_, ?_, ?_⟩
  · intro hflag htime
    simp [coordinatorMonitorTick, shouldShutdownDueToTimeout, hflag, htime]
  · intro hflag htime hmodel
    unfold monitorSessionTimeoutTick
    rw [if_neg (by rw [hflag]; exact Bool.false_ne_true)]
    dsimp only
    rw [if_pos (by rw [hmodel]; simpa using htime)]
    exact ⟨rfl, rfl⟩
  · intro hmodel
    unfold monitorSessionTimeoutTick
    split
    · rfl
    · rw [if_neg (by rw [hmodel]; simp)]

/-- Witness for the amended C9: at time 1000 with activity at 0, timeout
600 and a loaded model, the session monitor tick shuts down and unloads. -/
theorem idle_timeout_shutdown_on_tick_witness :
    (monitorSessionTimeoutTick
        { lastActivity := 0, sessionTimeout := 600, isModelLoaded := true,
          shutdownRequested := false } 1000).shutdownRequested = true ∧
    (monitorSessionTimeoutTick
        { lastActivity := 0, sessionTimeout := 600, isModelLoaded := true,
          shutdownRequested := false } 1000).isModelLoaded = false :=
  (idle_timeout_shutdown_on_tick
    { lastActivity := 0, sessionTimeout := 600, shutdownRequested := false }
    { lastActivity := 0, sessionTimeout := 600, isModelLoaded := true,
      shutdownRequested := false } 1000).2.1 rfl (by norm_num) rfl

end SpeechToText
